import Mathlib

/-
Shallow embedding of the caddy_ondemand_upstreams module
(src/process.go and src/ondemand_upstreams.go).

Modelling conventions:
- Go `time.Time` and `time.Duration` are both int64 nanosecond counts and are
  modelled as `Int` (`GoTime`, `GoDuration`).
- Side effects of the OS (ephemeral-port allocation, process spawn, signal
  delivery, waiting on a child) are nondeterministic from the program's point
  of view; each operation takes an explicit environment record carrying the
  outcome the OS would produce, and the translation of the Go function is a
  pure function of (state, environment outcomes).
- `exec.Cmd` is modelled by the fields the source actually sets: the program
  name, the argument list, the working directory and the environment strings
  (`Stdout`/`Stderr` routing carries no data relevant to any property here).
- The per-supervisor mutex serializes transitions; operations are therefore
  modelled as atomic state transformers.
- Logging calls (`caddy.Log()...Info(...)`) have no effect on state and are
  dropped.
-/

/-- Timestamps: Go `time.Time`, as nanoseconds since the epoch. -/
abbrev GoTime := Int

/-- Durations: Go `time.Duration`, in nanoseconds (`caddy.Duration` is the same). -/
abbrev GoDuration := Int

/-- A Go `error` value, identified by its message. -/
structure GoErr where
  msg : String
deriving DecidableEq, Repr

/-- Model of the fields of `exec.Cmd` set in process.go lines 76-82:
`exec.Command("sh", "-c", c)` plus `Dir` and the `Env` strings. -/
structure ExecCmd where
  prog : String
  args : List String
  dir : String
  env : List String
deriving DecidableEq, Repr

/-- State of `UpstreamProcess` (process.go lines 15-26).  The mutex is the
serialization discipline, not data, and is dropped. -/
structure UpstreamProcess where
  cmd : Option ExecCmd
  command : String
  port : Int
  dir : String
  env : List (String × String)
  startupDelay : GoDuration
  idleTimeout : GoDuration
  terminationGracePeriod : GoDuration
  lastActivity : GoTime
deriving DecidableEq, Repr

/-- `NewUpstreamProcess` (process.go lines 28-39); `now` is the value
`time.Now()` read for the initial `lastActivity`. -/
def NewUpstreamProcess (command : String) (port : Int) (dir : String)
    (env : List (String × String))
    (startup_delay idle_timeout termination_grace_period : GoDuration)
    (now : GoTime) : UpstreamProcess :=
  { cmd := none
    command := command
    port := port
    dir := dir
    env := env
    startupDelay := startup_delay
    idleTimeout := idle_timeout
    terminationGracePeriod := termination_grace_period
    lastActivity := now }

/-- `UpstreamProcess.GetPort` (process.go lines 41-43). -/
def UpstreamProcess.GetPort (u : UpstreamProcess) : Int := u.port

/-- `UpstreamProcess.IsRunning` (process.go lines 45-49): the source returns
`u.cmd != nil` (the stricter exit check is commented out with a TODO saying
this "is not working as expected"). -/
def UpstreamProcess.IsRunning (u : UpstreamProcess) : Bool := u.cmd.isSome

/-- `UpstreamProcess.LogActivity` (process.go lines 51-53); `now` is the value
`time.Now()` read at the call. -/
def UpstreamProcess.LogActivity (u : UpstreamProcess) (now : GoTime) : UpstreamProcess :=
  { u with lastActivity := now }

/-- Model of `strings.Contains(command, "%d")` (process.go line 158),
specialized to the pattern `"%d"`: scans for an occurrence of `'%'`
immediately followed by `'d'`. -/
def containsPercentD : List Char → Bool
  | [] => false
  | c :: t =>
    if c = '%' then
      match t with
      | [] => false
      | d :: _ => if d = 'd' then true else containsPercentD t
    else containsPercentD t

/-- Modelled fragment of Go `fmt.Sprintf(format, arg)` with a single `int`
argument (process.go line 159), covering format strings whose percent signs
occur only as the verb `%d` or the escape `%%` (the module's command templates
use at most the `%d` port placeholder).  Go semantics for this fragment: the
first `%d` consumes the argument; each later `%d` has no argument left and
prints `%!d(MISSING)`; `%%` prints a literal percent; if no `%d` consumed the
argument, `%!(EXTRA int=...)` is appended.  The `consumed` flag records
whether the argument has been used. -/
def sprintfInt (arg : Int) : List Char → Bool → List Char
  | [], consumed =>
    if consumed then [] else ("%!(EXTRA int=" ++ toString arg ++ ")").data
  | c :: t, consumed =>
    if c = '%' then
      match t with
      | [] => ['%']
      | d :: t2 =>
        if d = 'd' then
          (if consumed then "%!d(MISSING)".data else (toString arg).data)
            ++ sprintfInt arg t2 true
        else if d = '%' then
          '%' :: sprintfInt arg t2 consumed
        else
          '%' :: d :: sprintfInt arg t2 consumed
    else c :: sprintfInt arg t consumed

/-- `UpstreamProcess.getFormattedCommand` (process.go lines 156-164):
`if strings.Contains(command, "%d") { command = fmt.Sprintf(command, u.port) }`. -/
def UpstreamProcess.getFormattedCommand (u : UpstreamProcess) : String :=
  if containsPercentD u.command.data then ⟨sprintfInt u.port u.command.data false⟩
  else u.command

/-- OS outcomes consumed by one `Start` call: the result `getAvailablePort`
would produce (an OS-assigned TCP port is a natural number), the result of
`cmd.Start()` (`none` = spawn succeeded), and the `time.Now()` value read by
the `LogActivity` call after the startup-delay sleep. -/
structure StartEnv where
  allocResult : Except GoErr Nat
  spawnResult : Option GoErr
  now : GoTime

/-- Everything observable about one `Start` call: the state it leaves behind,
the error it returns (`none` = Go `nil`), and whether it invoked the port
allocator, attempted a spawn, and launched the idle-monitor goroutine. -/
structure StartOutcome where
  state : UpstreamProcess
  ret : Option GoErr
  allocInvoked : Bool
  spawnAttempted : Bool
  monitorLaunched : Bool

/-- Tail of `UpstreamProcess.Start` after port resolution (process.go lines
74-118): build the `exec.Cmd` (the handle is assigned to `u.cmd` BEFORE
`cmd.Start()` is called), attempt the spawn, and on success sleep the startup
delay, log activity and launch the idle monitor.  Note that on spawn failure
the source returns with `u.cmd` still set. -/
def UpstreamProcess.startSpawn (u : UpstreamProcess) (env : StartEnv)
    (allocInvoked : Bool) : StartOutcome :=
  let c := u.getFormattedCommand
  let handle : ExecCmd :=
    { prog := "sh", args := ["-c", c], dir := u.dir
      env := u.env.map fun kv => kv.1 ++ "=" ++ kv.2 }
  let u1 := { u with cmd := some handle }
  match env.spawnResult with
  | some e =>
    { state := u1, ret := some e, allocInvoked := allocInvoked
      spawnAttempted := true, monitorLaunched := false }
  | none =>
    { state := u1.LogActivity env.now, ret := none, allocInvoked := allocInvoked
      spawnAttempted := true, monitorLaunched := true }

/-- `UpstreamProcess.Start` (process.go lines 55-119): no-op when already
"running" (`cmd != nil`); otherwise resolve the port (allocate when the `-1`
sentinel is set), then spawn. -/
def UpstreamProcess.Start (u : UpstreamProcess) (env : StartEnv) : StartOutcome :=
  if u.IsRunning then
    { state := u, ret := none, allocInvoked := false
      spawnAttempted := false, monitorLaunched := false }
  else if u.port = -1 then
    match env.allocResult with
    | .error e =>
      { state := u, ret := some e, allocInvoked := true
        spawnAttempted := false, monitorLaunched := false }
    | .ok p => UpstreamProcess.startSpawn { u with port := (p : Int) } env true
  else UpstreamProcess.startSpawn u env false

/-- OS outcomes consumed by one `Stop` call: the result of
`cmd.Process.Signal(os.Interrupt)` and of `cmd.Wait()` (`none` = success). -/
structure StopEnv where
  signalResult : Option GoErr
  waitResult : Option GoErr

/-- Everything observable about one `Stop` call. -/
structure StopOutcome where
  state : UpstreamProcess
  signalAttempted : Bool
  waitInvoked : Bool
  killed : Bool

/-- `UpstreamProcess.Stop` (process.go lines 121-154).  No-op unless
"running".  If SIGINT delivery fails the source logs and RETURNS, leaving
`u.cmd` set (lines 141-144).  If delivery succeeds it waits (`cmd.Wait()`,
whose error the source discards — `env.waitResult` is deliberately unread,
mirroring line 140), then re-checks `u.IsRunning()`; since `u.cmd` has not
been cleared yet this is still true, so the SIGKILL branch of lines 146-149
always runs; finally `u.cmd = nil`.  The grace-period goroutine of lines
132-139 is a concurrent timer with no further effect on supervisor state and
is elided. -/
def UpstreamProcess.Stop (u : UpstreamProcess) (env : StopEnv) : StopOutcome :=
  if !u.IsRunning then
    { state := u, signalAttempted := false, waitInvoked := false, killed := false }
  else
    match env.signalResult with
    | some _ =>
      { state := u, signalAttempted := true, waitInvoked := false, killed := false }
    | none =>
      { state := { u with cmd := none }, signalAttempted := true
        waitInvoked := true, killed := true }

/-- One iteration of the idle-monitor goroutine body (process.go lines
104-115), at the tick whose `time.Now()` reads `now`: if
`lastActivity.Add(idleTimeout).After(now)` the loop continues; otherwise it
calls `u.Stop()` and breaks.  Returns (state after the iteration, whether the
loop continues, whether `Stop` was invoked). -/
def UpstreamProcess.idleMonitorStep (u : UpstreamProcess) (env : StopEnv)
    (now : GoTime) : UpstreamProcess × Bool × Bool :=
  if u.lastActivity + u.idleTimeout > now then (u, true, false)
  else ((u.Stop env).state, false, true)

/-- The idle-monitor goroutine run over a (finite prefix of its) sequence of
ticks, each tick carrying its OS outcomes and its `time.Now()` reading.
Returns the final state and how many times the monitor invoked `Stop`. -/
def UpstreamProcess.runMonitor (u : UpstreamProcess) :
    List (StopEnv × GoTime) → UpstreamProcess × Nat
  | [] => (u, 0)
  | t :: rest =>
    let st := u.idleMonitorStep t.1 t.2
    if st.2.1 then
      let r := UpstreamProcess.runMonitor st.1 rest
      (r.1, (if st.2.2 then 1 else 0) + r.2)
    else (st.1, if st.2.2 then 1 else 0)

/-- Configuration fields of `OndemandUpstreams` used by the request path
(ondemand_upstreams.go lines 34-81), plus the managed process. -/
structure OndemandUpstreams where
  Command : String
  StartupDelay : GoDuration
  Port : Int
  IdleTimeout : GoDuration
  upstreamProcess : Option UpstreamProcess

/-- A reverse-proxy upstream; only the `Dial` address matters here. -/
structure Upstream where
  Dial : String
deriving DecidableEq, Repr

/-- Model of `net.JoinHostPort` (ondemand_upstreams.go line 208): brackets the
host when it contains a colon, else plain `host:port`. -/
def joinHostPort (host port : String) : String :=
  if host.data.contains ':' then "[" ++ host ++ "]:" ++ port else host ++ ":" ++ port

/-- Everything observable about one `GetUpstreams` call: the module state it
leaves behind, the returned (upstreams, error) pair, and the outcome of the
inner `Start` call. -/
structure GetUpstreamsOutcome where
  o : OndemandUpstreams
  result : Except GoErr (List Upstream)
  start : StartOutcome

/-- `OndemandUpstreams.GetUpstreams` (ondemand_upstreams.go lines 193-214):
lazily create the `UpstreamProcess` (the source's constructor call passes
command, port, startup delay and idle timeout; working directory, environment
and grace period are not passed and are modelled as zero values), call
`Start` DISCARDING its returned error (line 201), then, if `IsRunning()`,
log activity and return the single dial address; else return the
"no upstreams available" error.  `nowNew` and `nowActivity` are the
`time.Now()` readings of the constructor and of `LogActivity`. -/
def OndemandUpstreams.GetUpstreams (o : OndemandUpstreams) (env : StartEnv)
    (nowNew nowActivity : GoTime) : GetUpstreamsOutcome :=
  let up0 :=
    match o.upstreamProcess with
    | none => NewUpstreamProcess o.Command o.Port "" [] o.StartupDelay o.IdleTimeout 0 nowNew
    | some u => u
  let so := up0.Start env
  let u := so.state
  if u.IsRunning then
    let u1 := u.LogActivity nowActivity
    { o := { o with upstreamProcess := some u1 }
      result := .ok [{ Dial := joinHostPort "localhost" (toString u1.GetPort) }]
      start := so }
  else
    { o := { o with upstreamProcess := some u }
      result := .error { msg := "no upstreams available" }
      start := so }

/-- `OndemandUpstreams.Cleanup` (ondemand_upstreams.go lines 217-223): stop
the managed process if present and "running"; always returns `nil`. -/
def OndemandUpstreams.Cleanup (o : OndemandUpstreams) (env : StopEnv) :
    OndemandUpstreams × Option GoErr :=
  match o.upstreamProcess with
  | some u =>
    if u.IsRunning then ({ o with upstreamProcess := some (u.Stop env).state }, none)
    else (o, none)
  | none => (o, none)

/-- An operation applied to the supervisor state: a host-driven start, a stop
(by `Cleanup` or the monitor), an activity report, or one monitor tick. -/
inductive Op where
  | start (env : StartEnv)
  | stop (env : StopEnv)
  | logActivity (now : GoTime)
  | tick (env : StopEnv) (now : GoTime)

/-- Apply one operation; the Bool reports whether the port allocator was
invoked by this operation. -/
def applyOp (u : UpstreamProcess) : Op → UpstreamProcess × Bool
  | .start env => let o := u.Start env; (o.state, o.allocInvoked)
  | .stop env => ((u.Stop env).state, false)
  | .logActivity now => (u.LogActivity now, false)
  | .tick env now => ((u.idleMonitorStep env now).1, false)

/-- Run a sequence of operations; the Bool reports whether the port allocator
was invoked anywhere in the sequence. -/
def runOps (u : UpstreamProcess) : List Op → UpstreamProcess × Bool
  | [] => (u, false)
  | op :: rest =>
    let s := applyOp u op
    let r := runOps s.1 rest
    (r.1, s.2 || r.2)

example : containsPercentD "echo hi".data = false := by decide

example : containsPercentD "serve --http :%d".data = true := by decide

example : sprintfInt 7 "a %d b %d".data false = "a 7 b %!d(MISSING)".data := by decide

/-- A concrete live process handle, for the concrete scenarios below. -/
def sampleHandle : ExecCmd :=
  { prog := "sh", args := ["-c", "./app serve"], dir := "", env := [] }

/-- A supervisor state whose process is live (handle present). -/
def sampleRunning : UpstreamProcess :=
  { cmd := some sampleHandle
    command := "./app serve"
    port := 8080
    dir := ""
    env := []
    startupDelay := 0
    idleTimeout := 300000000000
    terminationGracePeriod := 10000000000
    lastActivity := 0 }

/-- A `Start` environment in which the spawn fails (missing binary); the
allocator would succeed if consulted. -/
def spawnFailEnv : StartEnv :=
  { allocResult := .ok 0
    spawnResult := some { msg := "fork/exec ./missing: no such file or directory" }
    now := 0 }

/-- A `Start` environment in which every OS interaction succeeds. -/
def spawnOkEnv : StartEnv :=
  { allocResult := .ok 0, spawnResult := none, now := 5 }

/-- A freshly constructed (never started) supervisor with a fixed port. -/
def c1proc : UpstreamProcess := NewUpstreamProcess "./missing" 9999 "" [] 0 0 0 0

/-- C1 (code_bug): on spawn failure `Start` does return the error, but the
state does NOT revert to `Stopped`: `u.cmd` was assigned before `cmd.Start()`
(process.go line 76) and is not cleared on the error path (lines 86-89), so
`IsRunning()` reports true and the next `Start` call takes the "already
running" no-op path (lines 60-63) instead of making a fresh spawn attempt. -/
theorem c1_failed_spawn_not_reverted_to_stopped :
    (c1proc.Start spawnFailEnv).ret =
      some { msg := "fork/exec ./missing: no such file or directory" } ∧
    (c1proc.Start spawnFailEnv).state.IsRunning = true ∧
    ((c1proc.Start spawnFailEnv).state.Start spawnOkEnv).spawnAttempted = false ∧
    ((c1proc.Start spawnFailEnv).state.Start spawnOkEnv).ret = none :=
  ⟨rfl, rfl, rfl, rfl⟩

/-- A fixed-port configuration whose command spawn will fail. -/
def c2conf : OndemandUpstreams :=
  { Command := "./missing"
    StartupDelay := 0
    Port := 9999
    IdleTimeout := 300000000000
    upstreamProcess := none }

/-- C2 (code_bug): `GetUpstreams` discards the error returned by `Start`
(ondemand_upstreams.go line 201) and then trusts `IsRunning()`, which is true
because the failed spawn left the handle set; so the very call whose spawn
failed returns the dial address `localhost:9999` to the host. -/
theorem c2_dial_address_returned_despite_spawn_failure :
    (c2conf.GetUpstreams spawnFailEnv 0 1).start.ret =
      some { msg := "fork/exec ./missing: no such file or directory" } ∧
    (c2conf.GetUpstreams spawnFailEnv 0 1).result =
      Except.ok [{ Dial := "localhost:9999" }] :=
  ⟨rfl, rfl⟩

/-- A `Stop` environment in which SIGINT delivery fails because the process
already exited; waiting would succeed if attempted. -/
def alreadyExitedSigEnv : StopEnv :=
  { signalResult := some { msg := "os: process already finished" }
    waitResult := none }

/-- C3 (code_bug): when delivery of the polite signal fails, `Stop` logs and
returns early (process.go lines 141-144): it does not wait for the process to
be reaped, does not clear the handle, and leaves the supervisor still
reporting the process as running — the claimed "clears the handle and leaves
the supervisor Stopped in all cases" does not hold. -/
theorem c3_signal_failure_returns_without_clearing :
    (sampleRunning.Stop alreadyExitedSigEnv).state.cmd = some sampleHandle ∧
    (sampleRunning.Stop alreadyExitedSigEnv).waitInvoked = false ∧
    (sampleRunning.Stop alreadyExitedSigEnv).state.IsRunning = true :=
  ⟨rfl, rfl, rfl⟩

/-- A live supervisor whose idle timeout is the `-1` "disabled" sentinel
(ondemand_upstreams.go lines 62-64: "Set to -1 to disable process
termination"). -/
def disabledIdleProc : UpstreamProcess :=
  { sampleRunning with idleTimeout := -1, lastActivity := 1000000000 }

/-- A `Stop` environment in which every OS interaction succeeds. -/
def cleanStopEnv : StopEnv := { signalResult := none, waitResult := none }

/-- C4 (code_bug): with the disabled sentinel `idleTimeout = -1`, the monitor
tick test `lastActivity.Add(idleTimeout).After(now)` (process.go line 108) is
false on the very first tick (one second after the last activity), so the
monitor invokes `Stop`, terminates the process, and exits the loop — instead
of never terminating a process whose idle timeout is disabled. -/
theorem c4_disabled_idle_timeout_still_terminates :
    (disabledIdleProc.idleMonitorStep cleanStopEnv 2000000000).2.2 = true ∧
    (disabledIdleProc.idleMonitorStep cleanStopEnv 2000000000).2.1 = false ∧
    (disabledIdleProc.idleMonitorStep cleanStopEnv 2000000000).1.cmd = none :=
  ⟨rfl, rfl, rfl⟩

/-- C8 (confirmed): in a termination whose polite signal was delivered, the
error of `cmd.Wait()` is discarded by the source (process.go line 140), so
even when the reap fails the call still reaches `u.cmd = nil` (line 153): the
handle is cleared, the supervisor reports not-running, and a later `Start`
call attempts a fresh spawn instead of taking the no-op path. -/
theorem c8_reap_error_still_clears_handle (u : UpstreamProcess) (env : StopEnv)
    (e : GoErr) (hrun : u.IsRunning = true) (hsig : env.signalResult = none)
    (hwait : env.waitResult = some e) :
    (u.Stop env).state.cmd = none ∧
    (u.Stop env).state.IsRunning = false ∧
    (u.Stop env).waitInvoked = true ∧
    ∀ env2 : StartEnv, ∀ p : Nat, env2.allocResult = .ok p →
      ((u.Stop env).state.Start env2).spawnAttempted = true := by
  have hsome : u.cmd.isSome = true := hrun
  obtain ⟨hd, hcmd⟩ := Option.isSome_iff_exists.mp hsome
  refine ⟨?_, ?_, ?_, ?_⟩
  · simp [UpstreamProcess.Stop, UpstreamProcess.IsRunning, hcmd, hsig]
  · simp [UpstreamProcess.Stop, UpstreamProcess.IsRunning, hcmd, hsig]
  · simp [UpstreamProcess.Stop, UpstreamProcess.IsRunning, hcmd, hsig]
  · intro env2 p hp
    by_cases hport : u.port = -1 <;>
      cases h2 : env2.spawnResult <;>
        simp [UpstreamProcess.Stop, UpstreamProcess.IsRunning, hcmd, hsig,
              UpstreamProcess.Start, UpstreamProcess.startSpawn, hport, hp, h2]

/-- A `Stop` environment with deliverable SIGINT but a failing `Wait`. -/
def reapFailEnv : StopEnv :=
  { signalResult := none, waitResult := some { msg := "waitid: no child processes" } }

/-- Witness for C8 at a concrete running supervisor and failing reap. -/
theorem c8_reap_error_still_clears_handle_witness :
    (sampleRunning.Stop reapFailEnv).state.cmd = none ∧
    (sampleRunning.Stop reapFailEnv).state.IsRunning = false ∧
    (sampleRunning.Stop reapFailEnv).waitInvoked = true ∧
    ∀ env2 : StartEnv, ∀ p : Nat, env2.allocResult = .ok p →
      ((sampleRunning.Stop reapFailEnv).state.Start env2).spawnAttempted = true :=
  c8_reap_error_still_clears_handle sampleRunning reapFailEnv
    { msg := "waitid: no child processes" } rfl rfl rfl

/-- C9 (confirmed): when the managed process is in the running state
(`IsRunning()` true), `GetUpstreams` performs no new spawn and no port
allocation (`Start` takes the no-op path of process.go lines 60-63, leaving
the state untouched), records activity, and returns the current dial
address. -/
theorem c9_running_fast_path (o : OndemandUpstreams) (u : UpstreamProcess)
    (env : StartEnv) (n0 n1 : GoTime)
    (ho : o.upstreamProcess = some u) (hrun : u.IsRunning = true) :
    (o.GetUpstreams env n0 n1).start.spawnAttempted = false ∧
    (o.GetUpstreams env n0 n1).start.allocInvoked = false ∧
    (o.GetUpstreams env n0 n1).start.state = u ∧
    (o.GetUpstreams env n0 n1).o.upstreamProcess = some (u.LogActivity n1) ∧
    (o.GetUpstreams env n0 n1).result =
      Except.ok [{ Dial := joinHostPort "localhost" (toString u.GetPort) }] := by
  refine ⟨?_, ?_, ?_, ?_, ?_⟩ <;>
    simp [OndemandUpstreams.GetUpstreams, ho, UpstreamProcess.Start, hrun,
          UpstreamProcess.LogActivity, UpstreamProcess.GetPort]

/-- A provisioned module holding the running sample process. -/
def sampleRunningConf : OndemandUpstreams :=
  { Command := "./app serve"
    StartupDelay := 0
    Port := 8080
    IdleTimeout := 300000000000
    upstreamProcess := some sampleRunning }

/-- Witness for C9 at the concrete running module state. -/
theorem c9_running_fast_path_witness :
    (sampleRunningConf.GetUpstreams spawnOkEnv 0 7).start.spawnAttempted = false ∧
    (sampleRunningConf.GetUpstreams spawnOkEnv 0 7).start.allocInvoked = false ∧
    (sampleRunningConf.GetUpstreams spawnOkEnv 0 7).start.state = sampleRunning ∧
    (sampleRunningConf.GetUpstreams spawnOkEnv 0 7).o.upstreamProcess =
      some (sampleRunning.LogActivity 7) ∧
    (sampleRunningConf.GetUpstreams spawnOkEnv 0 7).result =
      Except.ok [{ Dial := joinHostPort "localhost" (toString sampleRunning.GetPort) }] :=
  c9_running_fast_path sampleRunningConf sampleRunning spawnOkEnv 0 7 rfl rfl

/-- C6 (confirmed): for a configuration with fixed port 9999 and a command
template containing no `%d` placeholder, a `GetUpstreams` call whose spawn
succeeds returns the dial address `localhost:9999`, never consults the port
allocator, and hands the command to the shell unchanged. -/
theorem c6_fixed_port_no_allocation (cmdStr : String) (sd it : GoDuration)
    (env : StartEnv) (n0 n1 : GoTime)
    (hnp : containsPercentD cmdStr.data = false) (hspawn : env.spawnResult = none) :
    (OndemandUpstreams.GetUpstreams ⟨cmdStr, sd, 9999, it, none⟩ env n0 n1).start.allocInvoked
      = false ∧
    (OndemandUpstreams.GetUpstreams ⟨cmdStr, sd, 9999, it, none⟩ env n0 n1).result =
      Except.ok [{ Dial := "localhost:9999" }] ∧
    (OndemandUpstreams.GetUpstreams ⟨cmdStr, sd, 9999, it, none⟩ env n0 n1).start.state.cmd =
      some { prog := "sh", args := ["-c", cmdStr], dir := "", env := [] } := by
  refine ⟨?_, ?_, ?_⟩ <;>
    simp +decide [OndemandUpstreams.GetUpstreams, NewUpstreamProcess,
      UpstreamProcess.Start, UpstreamProcess.IsRunning, UpstreamProcess.startSpawn,
      UpstreamProcess.getFormattedCommand, hnp, hspawn, UpstreamProcess.LogActivity,
      UpstreamProcess.GetPort, joinHostPort]

/-- Witness for C6 at a concrete placeholder-free command. -/
theorem c6_fixed_port_no_allocation_witness :
    containsPercentD "./app serve".data = false ∧
    ((OndemandUpstreams.GetUpstreams ⟨"./app serve", 0, 9999, 300000000000, none⟩
        spawnOkEnv 0 1).start.allocInvoked = false ∧
     (OndemandUpstreams.GetUpstreams ⟨"./app serve", 0, 9999, 300000000000, none⟩
        spawnOkEnv 0 1).result = Except.ok [{ Dial := "localhost:9999" }] ∧
     (OndemandUpstreams.GetUpstreams ⟨"./app serve", 0, 9999, 300000000000, none⟩
        spawnOkEnv 0 1).start.state.cmd =
       some { prog := "sh", args := ["-c", "./app serve"], dir := "", env := [] }) :=
  ⟨by decide, c6_fixed_port_no_allocation "./app serve" 0 300000000000 spawnOkEnv 0 1
    (by decide) rfl⟩

/-- The spawn tail never changes the assigned port. -/
theorem startSpawn_port (u : UpstreamProcess) (env : StartEnv) (a : Bool) :
    (u.startSpawn env a).state.port = u.port := by
  cases h : env.spawnResult <;>
    simp [UpstreamProcess.startSpawn, h, UpstreamProcess.LogActivity]

/-- The spawn tail reports exactly the allocator usage it was handed. -/
theorem startSpawn_allocInvoked (u : UpstreamProcess) (env : StartEnv) (a : Bool) :
    (u.startSpawn env a).allocInvoked = a := by
  cases h : env.spawnResult <;> simp [UpstreamProcess.startSpawn, h]

/-- When the port is already assigned (not the `-1` sentinel), `Start` keeps
it and never consults the allocator. -/
theorem start_port_preserved (u : UpstreamProcess) (env : StartEnv)
    (h : u.port ≠ -1) :
    (u.Start env).state.port = u.port ∧ (u.Start env).allocInvoked = false := by
  by_cases hr : u.IsRunning <;>
    simp [UpstreamProcess.Start, hr, h, startSpawn_port, startSpawn_allocInvoked]

/-- `Stop` never changes the assigned port. -/
theorem stop_port (u : UpstreamProcess) (env : StopEnv) :
    (u.Stop env).state.port = u.port := by
  by_cases hr : u.IsRunning
  · cases h : env.signalResult <;> simp [UpstreamProcess.Stop, hr, h]
  · simp [UpstreamProcess.Stop, hr]

/-- A monitor tick never changes the assigned port. -/
theorem tick_port (u : UpstreamProcess) (env : StopEnv) (n : GoTime) :
    (u.idleMonitorStep env n).1.port = u.port := by
  by_cases h : u.lastActivity + u.idleTimeout > n <;>
    simp [UpstreamProcess.idleMonitorStep, h, stop_port]

/-- No single operation changes an already-assigned port or re-invokes the
allocator. -/
theorem applyOp_port (u : UpstreamProcess) (op : Op) (h : u.port ≠ -1) :
    (applyOp u op).1.port = u.port ∧ (applyOp u op).2 = false := by
  cases op with
  | start env => simpa [applyOp] using start_port_preserved u env h
  | stop env => simp [applyOp, stop_port]
  | logActivity n => simp [applyOp, UpstreamProcess.LogActivity]
  | tick env n => simp [applyOp, tick_port]

/-- Trace invariant: once the port is assigned, every operation sequence
keeps it and never invokes the allocator. -/
theorem runOps_port_sticky (ops : List Op) :
    ∀ u : UpstreamProcess, u.port ≠ -1 →
    (runOps u ops).1.port = u.port ∧ (runOps u ops).2 = false := by
  induction ops with
  | nil => intro u _; simp [runOps]
  | cons op rest ih =>
    intro u h
    have h1 := applyOp_port u op h
    have h2 := ih (applyOp u op).1 (by rw [h1.1]; exact h)
    simp only [runOps]
    exact ⟨h1.1 ▸ h2.1, by simp [h1.2, h2.2]⟩

/-- C10 (confirmed): automatic port assignment is sticky.  A start from the
`-1` sentinel that allocates port `p` stores `p` in the supervisor's port
field (process.go lines 65-72); `p` is an OS-assigned TCP port (a natural
number), so the field can never be the `-1` sentinel again, and every
subsequent operation sequence — stops, restarts, activity, monitor ticks —
keeps the same port and never invokes the allocator again. -/
theorem c10_auto_port_sticky (u : UpstreamProcess) (env : StartEnv) (p : Nat)
    (ops : List Op) (hstopped : u.cmd = none) (hport : u.port = -1)
    (halloc : env.allocResult = .ok p) (hspawn : env.spawnResult = none) :
    (u.Start env).state.port = (p : Int) ∧
    (u.Start env).allocInvoked = true ∧
    (runOps (u.Start env).state ops).1.port = (p : Int) ∧
    (runOps (u.Start env).state ops).2 = false := by
  have hp : (u.Start env).state.port = (p : Int) := by
    simp [UpstreamProcess.Start, UpstreamProcess.IsRunning, hstopped, hport,
          halloc, startSpawn_port]
  have hne : ((p : Int)) ≠ -1 := by omega
  have hrun := runOps_port_sticky ops (u.Start env).state (by rw [hp]; exact hne)
  refine ⟨hp, ?_, hp ▸ hrun.1, hrun.2⟩
  simp [UpstreamProcess.Start, UpstreamProcess.IsRunning, hstopped, hport,
        halloc, startSpawn_allocInvoked]

/-- A never-started supervisor configured for automatic port assignment. -/
def autoPortProc : UpstreamProcess :=
  NewUpstreamProcess "./app serve --http :%d" (-1) "" [] 0 300000000000 0 0

/-- A `Start` environment that allocates port 8081 and spawns successfully. -/
def allocOkEnv : StartEnv :=
  { allocResult := .ok 8081, spawnResult := none, now := 3 }

/-- Witness for C10: allocate 8081, then stop and restart; the port stays
8081 and the allocator is never consulted again. -/
theorem c10_auto_port_sticky_witness :
    (autoPortProc.Start allocOkEnv).state.port = ((8081 : Nat) : Int) ∧
    (autoPortProc.Start allocOkEnv).allocInvoked = true ∧
    (runOps (autoPortProc.Start allocOkEnv).state
      [Op.stop cleanStopEnv, Op.start spawnOkEnv]).1.port = ((8081 : Nat) : Int) ∧
    (runOps (autoPortProc.Start allocOkEnv).state
      [Op.stop cleanStopEnv, Op.start spawnOkEnv]).2 = false :=
  c10_auto_port_sticky autoPortProc allocOkEnv 8081
    [Op.stop cleanStopEnv, Op.start spawnOkEnv] rfl rfl rfl rfl

/-- The monitor loop invokes `Stop` at most once per monitor instance: the
loop body breaks immediately after the `Stop` call (process.go lines
112-114). -/
theorem runMonitor_stops_le_one (ticks : List (StopEnv × GoTime)) :
    ∀ u : UpstreamProcess, (u.runMonitor ticks).2 ≤ 1 := by
  induction ticks with
  | nil => intro u; simp [UpstreamProcess.runMonitor]
  | cons t rest ih =>
    intro u
    by_cases h : u.lastActivity + u.idleTimeout > t.2 <;>
      simp [UpstreamProcess.runMonitor, UpstreamProcess.idleMonitorStep, h, ih]

/-- C5 (corrected, amended): the idle monitor invokes termination at most
once and then exits; but when the supervisor stops the process by any OTHER
path, the monitor does not exit then — while the idle window has not lapsed
it keeps ticking over the already-stopped instance, and only when the window
lapses does it perform a (no-op) `Stop` and exit. -/
theorem c5_monitor_at_most_once_but_outlives_stop (u : UpstreamProcess)
    (ticks : List (StopEnv × GoTime)) (env : StopEnv) (now : GoTime)
    (hstopped : u.IsRunning = false) :
    (u.runMonitor ticks).2 ≤ 1 ∧
    (u.lastActivity + u.idleTimeout > now →
      u.idleMonitorStep env now = (u, true, false)) ∧
    (u.lastActivity + u.idleTimeout ≤ now →
      u.idleMonitorStep env now = (u, false, true)) := by
  refine ⟨runMonitor_stops_le_one ticks u, fun h => ?_, fun h => ?_⟩
  · simp [UpstreamProcess.idleMonitorStep, h]
  · have hng : ¬ (u.lastActivity + u.idleTimeout > now) := not_lt.mpr h
    simp [UpstreamProcess.idleMonitorStep, hng, UpstreamProcess.Stop, hstopped]

/-- The sample process after an external (Cleanup-style) stop. -/
def stoppedSample : UpstreamProcess := (sampleRunning.Stop cleanStopEnv).state

/-- Witness for C5's amended statement at the concrete stopped instance. -/
theorem c5_monitor_at_most_once_but_outlives_stop_witness :
    (stoppedSample.runMonitor [(cleanStopEnv, 1000000000)]).2 ≤ 1 ∧
    (stoppedSample.lastActivity + stoppedSample.idleTimeout > 1000000000 →
      stoppedSample.idleMonitorStep cleanStopEnv 1000000000 =
        (stoppedSample, true, false)) ∧
    (stoppedSample.lastActivity + stoppedSample.idleTimeout ≤ 1000000000 →
      stoppedSample.idleMonitorStep cleanStopEnv 1000000000 =
        (stoppedSample, false, true)) :=
  c5_monitor_at_most_once_but_outlives_stop stoppedSample
    [(cleanStopEnv, 1000000000)] cleanStopEnv 1000000000 rfl

/-- A module state holding the running sample process, to be cleaned up. -/
def c5conf : OndemandUpstreams :=
  { Command := "./app serve"
    StartupDelay := 0
    Port := 8080
    IdleTimeout := 300000000000
    upstreamProcess := some sampleRunning }

/-- C5 counterexample: `Cleanup` stops the live process (its handle is
cleared), yet a monitor tick one second later — well inside the idle window —
still CONTINUES ticking: the monitor bound to the stopped instance has not
exited, contradicting "it exits cleanly whenever the supervisor stops the
process by any other path, so no orphaned monitor task remains ticking". -/
theorem c5_counterexample_monitor_survives_cleanup :
    (c5conf.Cleanup cleanStopEnv).1.upstreamProcess = some stoppedSample ∧
    stoppedSample.IsRunning = false ∧
    stoppedSample.idleMonitorStep cleanStopEnv 1000000000 =
      (stoppedSample, true, false) :=
  ⟨rfl, rfl, rfl⟩

/-- Scanning for `%d` skips over a percent-free prefix. -/
theorem containsPercentD_append_no_percent (a r : List Char) (ha : '%' ∉ a) :
    containsPercentD (a ++ r) = containsPercentD r := by
  induction a with
  | nil => rfl
  | cons c t ih =>
    have hc : c ≠ '%' := by rintro rfl; exact ha (List.mem_cons_self _ _)
    have ht : '%' ∉ t := fun h => ha (List.mem_cons_of_mem c h)
    simp [containsPercentD, hc, ih ht]

/-- A percent-free string contains no `%d` placeholder. -/
theorem containsPercentD_no_percent (a : List Char) (ha : '%' ∉ a) :
    containsPercentD a = false := by
  simpa using containsPercentD_append_no_percent a [] ha

/-- The formatter copies a percent-free prefix verbatim. -/
theorem sprintfInt_append_no_percent (arg : Int) (a r : List Char) (cns : Bool)
    (ha : '%' ∉ a) : sprintfInt arg (a ++ r) cns = a ++ sprintfInt arg r cns := by
  induction a with
  | nil => rfl
  | cons c t ih =>
    have hc : c ≠ '%' := by rintro rfl; exact ha (List.mem_cons_self _ _)
    have ht : '%' ∉ t := fun h => ha (List.mem_cons_of_mem c h)
    rw [List.cons_append, sprintfInt.eq_def]
    simp [hc, ih ht]

/-- Once the argument is consumed, a percent-free remainder is left as is. -/
theorem sprintfInt_no_percent_consumed (arg : Int) (a : List Char)
    (ha : '%' ∉ a) : sprintfInt arg a true = a := by
  simpa [sprintfInt] using sprintfInt_append_no_percent arg a [] true ha

/-- At a `%d` verb the formatter emits the argument if it is still unconsumed
and the `%!d(MISSING)` marker otherwise, and marks the argument consumed. -/
theorem sprintfInt_pd (arg : Int) (b : List Char) (c0 : Bool) :
    sprintfInt arg ('%' :: 'd' :: b) c0 =
      (if c0 then "%!d(MISSING)".data else (toString arg).data)
        ++ sprintfInt arg b true := by
  simp [sprintfInt]

/-- C7 (corrected, amended): the command formatter passes a placeholder-free
template to the shell unchanged and substitutes the resolved port for the
FIRST `%d` placeholder, but `fmt.Sprintf(command, u.port)` supplies only one
argument (process.go line 159), so every later `%d` placeholder is replaced
by Go's `%!d(MISSING)` marker rather than by the port. -/
theorem c7_first_placeholder_substituted (u : UpstreamProcess) (a b c : List Char)
    (ha : '%' ∉ a) (hb : '%' ∉ b) (hc : '%' ∉ c) :
    ({ u with command := String.mk a } : UpstreamProcess).getFormattedCommand
      = String.mk a ∧
    ({ u with command := String.mk (a ++ '%' :: 'd' :: b) } :
        UpstreamProcess).getFormattedCommand
      = String.mk (a ++ (toString u.port).data ++ b) ∧
    ({ u with command := String.mk (a ++ '%' :: 'd' :: (b ++ '%' :: 'd' :: c)) } :
        UpstreamProcess).getFormattedCommand
      = String.mk (a ++ (toString u.port).data ++ (b ++ "%!d(MISSING)".data ++ c)) := by
  refine ⟨?_, ?_, ?_⟩
  · simp [UpstreamProcess.getFormattedCommand, containsPercentD_no_percent a ha]
  · have h1 : containsPercentD (a ++ '%' :: 'd' :: b) = true := by
      rw [containsPercentD_append_no_percent a _ ha]; rfl
    simp [UpstreamProcess.getFormattedCommand, h1,
          sprintfInt_append_no_percent u.port a ('%' :: 'd' :: b) false ha,
          sprintfInt_pd, sprintfInt_no_percent_consumed u.port b hb]
  · have h1 : containsPercentD (a ++ '%' :: 'd' :: (b ++ '%' :: 'd' :: c)) = true := by
      rw [containsPercentD_append_no_percent a _ ha]; rfl
    simp [UpstreamProcess.getFormattedCommand, h1,
          sprintfInt_append_no_percent u.port a ('%' :: 'd' :: (b ++ '%' :: 'd' :: c)) false ha,
          sprintfInt_pd,
          sprintfInt_append_no_percent u.port b ('%' :: 'd' :: c) true hb,
          sprintfInt_no_percent_consumed u.port c hc]

/-- Witness for C7's amended statement at concrete percent-free fragments. -/
theorem c7_first_placeholder_substituted_witness :
    ({ sampleRunning with command := String.mk "run ".data } :
        UpstreamProcess).getFormattedCommand = String.mk "run ".data ∧
    ({ sampleRunning with
        command := String.mk ("run ".data ++ '%' :: 'd' :: " -v".data) } :
        UpstreamProcess).getFormattedCommand
      = String.mk ("run ".data ++ (toString sampleRunning.port).data ++ " -v".data) ∧
    ({ sampleRunning with
        command := String.mk ("run ".data ++ '%' :: 'd' ::
          (" -v".data ++ '%' :: 'd' :: " -w".data)) } :
        UpstreamProcess).getFormattedCommand
      = String.mk ("run ".data ++ (toString sampleRunning.port).data ++
          (" -v".data ++ "%!d(MISSING)".data ++ " -w".data)) :=
  c7_first_placeholder_substituted sampleRunning "run ".data " -v".data " -w".data
    (by decide) (by decide) (by decide)

/-- A supervisor whose template has two `%d` placeholders, port 7. -/
def c7proc : UpstreamProcess :=
  { sampleRunning with command := "run --p1 %d --p2 %d", port := 7 }

/-- C7 counterexample: with two placeholders and port 7, the formatted
command is NOT the claim's "port substituted at every occurrence": the second
placeholder becomes `%!d(MISSING)`. -/
theorem c7_counterexample_second_placeholder_not_substituted :
    c7proc.getFormattedCommand = "run --p1 7 --p2 %!d(MISSING)" ∧
    c7proc.getFormattedCommand ≠ "run --p1 7 --p2 7" := by
  exact ⟨by decide, by decide⟩
